import Mathlib

/-!
Verification of the Component Adaptation Layer of crankpy (`src/crank/__init__.py`)
against its natural-language specification.

The shallow embedding below translates, function by function, the Python code of
`src/crank/__init__.py`:

* the signature-classification / arity-trial logic of `component` and its inner
  `wrapper` (lines 680-884),
* the props conversion performed by `component.wrapper` (lines 715-742) and
  `Context.props` (lines 255-289), which share the same structure,
* the proxy dedup cache `_create_proxy_hybrid` (lines 26-38),
* the generator wrappers: `SymbolIteratorWrapper` (lines 297-497),
  `_create_controlled_thenable_wrapper` (lines 636-677), and the `wrap_result`
  step of the adapted entry point (lines 744-829).

Python machine-level details are embedded explicitly: a Python generator is a
state machine whose `__next__` either yields, raises `StopIteration` (modelled
structurally as `GenOut.stop`), or raises a user error; once exhausted, further
`__next__` calls raise `StopIteration` immediately without resuming the body
(we count body resumptions in `bodyRuns` to make "never resumes" provable).
Exceptions are modelled with `Except`.
-/

namespace Crank

/-- Values crossing the JS/Python boundary. `Val.none` is Python `None`. -/
inductive Val where
  | none
  | int (n : Int)
  | str (s : String)
  | bool (b : Bool)
deriving DecidableEq, Repr

/-- Python exceptions relevant to the adaptation layer. `StopIteration` is not
here: it is part of the generator protocol and modelled structurally. -/
inductive PyErr where
  | typeError (msg : String)
  | valueError (msg : String)
  | otherError (msg : String)
deriving DecidableEq, Repr

/-! ### Substring test (Python `phrase in error_msg`) -/

/-- `charListContains pat hay`: does `pat` occur as a contiguous run in `hay`?
Embeds Python's `in` operator on strings. -/
def charListContains (pat : List Char) : List Char → Bool
  | [] => List.isPrefixOf pat []
  | c :: t => List.isPrefixOf pat (c :: t) || charListContains pat t

/-- Python `pat in hay` for strings. -/
def strContains (hay pat : String) : Bool :=
  charListContains pat.data hay.data

/-! ### Signature classification (`component`, lines 680-884) -/

/-- The phrases the wrapper looks for in a `TypeError` message to judge it
"arity-mismatch-shaped" (source lines 861-864). -/
def arityPhrases : List String := ["takes", "positional argument", "missing", "given"]

/-- Source lines 859-864: an error triggers another arity trial only if it is a
`TypeError` whose lowercased message contains one of `arityPhrases`; every
other exception is a genuine user error. -/
def isArityMismatchShaped : PyErr → Bool
  | PyErr.typeError msg => arityPhrases.any (fun phrase => strContains msg.toLower phrase)
  | _ => false

/-- The `ValueError` message raised for an incompatible signature
(source lines 698-701 and 878-881). -/
def incompatibleSignatureMsg (name : String) : String :=
  "Component function " ++ name ++ " has incompatible signature. " ++
    "Expected 0, 1 (ctx), or 2 (ctx, props) parameters."

/-- Decoration-time classification (source lines 690-705): when static
introspection reports a parameter count (`introspect = some n`), a count above
2 raises `ValueError` eagerly and the decorator never returns a wrapper;
otherwise the count is cached.  When introspection is unavailable
(`introspect = none`, the MicroPython `AttributeError` path), the cache starts
empty and classification is deferred to the first invocation. -/
def componentDecorate (introspect : Option Nat) (name : String) :
    Except PyErr (Option Nat) :=
  match introspect with
  | some n =>
      if n > 2 then Except.error (PyErr.valueError (incompatibleSignatureMsg name))
      else Except.ok (some n)
  | none => Except.ok none

/-- A user callable seen through the dispatch layer: invoking it with `n`
positional arguments either returns a value or raises. -/
def UserCall : Type := Nat → Except PyErr Val

/-- Source lines 834-842: with a cached count the wrapper dispatches at 0, 1,
or (final `else` branch) 2 arguments. -/
def dispatchArity (n : Nat) : Nat :=
  if n = 0 then 0 else if n = 1 then 1 else 2

/-- The runtime arity-trial loop (source lines 846-881).  Returns the result
raised or returned to the caller, the new cached count, and the list of
arities at which the user callable was actually invoked.  A trial that raises
an arity-mismatch-shaped `TypeError` moves on to the next count without
caching; a success or any other error caches the attempted count; exhausting
all counts raises the incompatible-signature `ValueError` with nothing cached. -/
def runTrials (call : UserCall) (name : String) :
    List Nat → Except PyErr Val × Option Nat × List Nat
  | [] => (Except.error (PyErr.valueError (incompatibleSignatureMsg name)), none, [])
  | t :: rest =>
      match call t with
      | Except.ok v => (Except.ok v, some t, [t])
      | Except.error e =>
          if isArityMismatchShaped e then
            let r := runTrials call name rest
            (r.1, r.2.1, t :: r.2.2)
          else
            (Except.error e, some t, [t])

/-- One invocation of the adapted entry point's dispatch step (source lines
831-881): a cached count dispatches directly at that arity; an empty cache
runs the trial loop over `[2, 1, 0]`. -/
def wrapperInvoke (call : UserCall) (name : String) (cached : Option Nat) :
    Except PyErr Val × Option Nat × List Nat :=
  match cached with
  | some n => (call (dispatchArity n), some n, [dispatchArity n])
  | none => runTrials call name [2, 1, 0]

/-- `k` successive render passes through the adapted entry point, threading the
cached count; collects the dispatch trace of each pass and the final cache. -/
def invokeTimes (call : UserCall) (name : String) :
    Option Nat → Nat → List (List Nat) × Option Nat
  | cached, 0 => ([], cached)
  | cached, Nat.succ k =>
      let step := wrapperInvoke call name cached
      let rest := invokeTimes call name step.2.1 k
      (step.2.2 :: rest.1, rest.2)

/-! ### Proxy handle registry (`_create_proxy_hybrid`, lines 26-38) -/

/-- The Pyodide proxy cache: an association list from `id(func)` to the proxy
issued for it, plus a freshness counter standing for `create_proxy` returning
a new distinct proxy object on each call. -/
structure ProxyState where
  cache : List (Nat × Nat)
  fresh : Nat
deriving DecidableEq, Repr

/-- Source lines 34-38 (Pyodide variant): look the callable's identity up in
`_proxy_cache`; on a miss, create a fresh proxy and record it. -/
def createProxyHybridPyodide (s : ProxyState) (funcId : Nat) : Nat × ProxyState :=
  match s.cache.lookup funcId with
  | some proxyId => (proxyId, s)
  | none => (s.fresh, { cache := (funcId, s.fresh) :: s.cache, fresh := s.fresh + 1 })

/-- Source lines 30-31 (MicroPython variant): registration is a no-op
passthrough returning the callable itself. -/
def createProxyHybridMicroPython {α : Type} (f : α) : α := f

/-! ### Python generators and the iterator bridge (lines 297-677) -/

/-- One pending resumption of a generator body: it either yields a value or
raises a user error. -/
inductive StepOut where
  | yields (v : Val)
  | raises (e : PyErr)
deriving DecidableEq, Repr

/-- A Python (sync) generator object: the outcomes of its future body
resumptions, its exhausted flag, and a count of body resumptions executed so
far (observable so that "never resumes the body" is expressible). -/
structure Gen where
  steps : List StepOut
  exhausted : Bool
  bodyRuns : Nat
deriving DecidableEq, Repr

/-- Outcome of `__next__` on a generator. -/
inductive GenOut where
  | yielded (v : Val)
  | stop
  | raised (e : PyErr)
deriving DecidableEq, Repr

/-- Python `generator.__next__()` semantics: on an exhausted generator,
`StopIteration` is raised immediately and the body does not run; otherwise the
body resumes once and yields, raises (exhausting the generator), or finishes
(raising `StopIteration` and exhausting the generator). `send(v)` drives the
same step, so the embedding uses one function for both. -/
def genNext (g : Gen) : GenOut × Gen :=
  if g.exhausted then (GenOut.stop, g)
  else
    match g.steps with
    | StepOut.yields v :: rest =>
        (GenOut.yielded v, { steps := rest, exhausted := false, bodyRuns := g.bodyRuns + 1 })
    | StepOut.raises e :: _ =>
        (GenOut.raised e, { steps := [], exhausted := true, bodyRuns := g.bodyRuns + 1 })
    | [] => (GenOut.stop, { steps := [], exhausted := true, bodyRuns := g.bodyRuns + 1 })

/-- The `{value, done}` object of the JS iterator protocol. -/
structure JsIterResult where
  value : Option Val
  done : Bool
deriving DecidableEq, Repr

/-- `SymbolIteratorWrapper` instance state (source lines 300-306): the wrapped
generator, the optionally pre-consumed first value, its consumed flag, and the
`_is_symbol_iterator_wrapped` marker attribute. -/
structure WrapGen where
  pythonGenerator : Gen
  firstValue : Option Val
  firstValueConsumed : Bool
  isSymbolIteratorWrapped : Bool
deriving DecidableEq, Repr

/-- `SymbolIteratorWrapper.__init__` (lines 300-306): stores the generator and
first value, marks the first value unconsumed, and sets the wrapped marker. -/
def mkSymbolIteratorWrapper (g : Gen) (firstValue : Option Val) : WrapGen :=
  { pythonGenerator := g, firstValue := firstValue, firstValueConsumed := false,
    isSymbolIteratorWrapped := true }

/-- `SymbolIteratorWrapper.next` (lines 410-465), sync path.  The async branch
is guarded by `_is_async_generator`, which tests the attribute
`_detected_as_async_generator`; that attribute is never assigned anywhere in
the module, so the method always takes the sync path.  The first value, if
unconsumed, is returned without touching the generator; otherwise the
generator is driven one step (`send(value)` when a value is supplied, `next`
otherwise - the same step of `genNext`).  Only `StopIteration` is caught
(becoming `{value: None, done: true}`); any other exception propagates. -/
def wrapperNextMethod (s : WrapGen) (_value : Option Val) :
    Except PyErr JsIterResult × WrapGen :=
  if s.firstValue.isSome && !s.firstValueConsumed then
    (Except.ok { value := s.firstValue, done := false }, { s with firstValueConsumed := true })
  else
    match genNext s.pythonGenerator with
    | (GenOut.yielded v, g) =>
        (Except.ok { value := some v, done := false }, { s with pythonGenerator := g })
    | (GenOut.stop, g) =>
        (Except.ok { value := none, done := true }, { s with pythonGenerator := g })
    | (GenOut.raised e, g) =>
        (Except.error e, { s with pythonGenerator := g })

/-- A sequence of host `next(value)` pulls starting from wrapper state `s`:
the list of results handed to the host and the final wrapper state. -/
def nextTrace (s : WrapGen) : List (Option Val) → List (Except PyErr JsIterResult) × WrapGen
  | [] => ([], s)
  | v :: vs =>
      let step := wrapperNextMethod s v
      let rest := nextTrace step.2 vs
      (step.1 :: rest.1, rest.2)

/-- The `next_method` closure built by
`SymbolIteratorWrapper._create_sync_iterator` (lines 325-343).  Unlike the
`next` method above, its `try` block ends with `except Exception: return
{"value": None, "done": True}`, so a user error raised by the generator body
is converted into a normal terminal result instead of propagating. -/
def syncIteratorNext (s : WrapGen) : JsIterResult × WrapGen :=
  if s.firstValue.isSome && !s.firstValueConsumed then
    ({ value := s.firstValue, done := false }, { s with firstValueConsumed := true })
  else
    match genNext s.pythonGenerator with
    | (GenOut.yielded v, g) =>
        ({ value := some v, done := false }, { s with pythonGenerator := g })
    | (GenOut.stop, g) =>
        ({ value := none, done := true }, { s with pythonGenerator := g })
    | (GenOut.raised _, g) =>
        ({ value := none, done := true }, { s with pythonGenerator := g })

/-- The `python_next` closure of `_create_controlled_thenable_wrapper`
(lines 636-648): drives the raw generator one step; `StopIteration` and every
other exception alike become `{"value": None, "done": True}`. -/
def controlledThenableNext (g : Gen) : JsIterResult × Gen :=
  match genNext g with
  | (GenOut.yielded v, g2) => ({ value := some v, done := false }, g2)
  | (GenOut.stop, g2) => ({ value := none, done := true }, g2)
  | (GenOut.raised _, g2) => ({ value := none, done := true }, g2)

/-- The attribute names defined on the class body of `SymbolIteratorWrapper`
(lines 297-497), in source order.  This is the full method table of the
iterator handle; the class defines no `__getattr__` fallback. -/
def symbolIteratorWrapperMethods : List String :=
  ["__init__", "__getitem__", "_create_sync_iterator_function", "_create_sync_iterator",
   "_create_async_iterator_function", "_create_async_iterator", "__iter__", "__next__",
   "__aiter__", "__anext__", "next", "throw", "_is_async_generator", "__repr__"]

/-! ### `wrap_result` (lines 744-829) -/

/-- What a user callable's render result can be, as far as `wrap_result`
observes it: a plain value, a raw Python generator (has `__next__`), a
`SymbolIteratorWrapper` instance, or the JS thenable wrapper produced by
`_create_controlled_thenable_wrapper` (a JS object: it exposes `next`, `then`
and `Symbol.iterator` properties but no Python `__next__` attribute and no
`_is_symbol_iterator_wrapped` attribute). -/
inductive RenderResult where
  | plain (v : Val)
  | rawGen (g : Gen)
  | symbolWrapped (s : WrapGen)
  | thenable (g : Gen)
deriving DecidableEq, Repr

/-- Python `hasattr(result, "_is_symbol_iterator_wrapped")`: only
`SymbolIteratorWrapper` instances carry the marker (set in `__init__`). -/
def hasMarker : RenderResult → Bool
  | RenderResult.symbolWrapped s => s.isSymbolIteratorWrapped
  | _ => false

/-- Python `hasattr(result, "__next__")`: true for raw generators and for
`SymbolIteratorWrapper` (its class defines `__next__`); false for plain
values and for the JS thenable wrapper. -/
def hasNextAttr : RenderResult → Bool
  | RenderResult.rawGen _ => true
  | RenderResult.symbolWrapped _ => true
  | _ => false

/-- `_create_controlled_thenable_wrapper` applied to a result that has
`__next__` (the only inputs `wrap_result` hands it). -/
def mkControlledThenableWrapper : RenderResult → RenderResult
  | RenderResult.rawGen g => RenderResult.thenable g
  | RenderResult.symbolWrapped s => RenderResult.thenable s.pythonGenerator
  | r => r

/-- `wrap_result` (lines 744-829): first the marker short-circuit (lines
746-748); then, on MicroPython only, any result with `__next__` is wrapped in
the controlled thenable (lines 751-755); everything else is returned as-is.
(The code from line 756 to 828 re-tests `hasattr(result, "__next__")`, which
was just found false, so its generator branch is unreachable and every live
path there returns `result` unchanged; line 829 returns `result` for the
non-MicroPython runtime.) -/
def wrapResult (isMicroPython : Bool) (r : RenderResult) : RenderResult :=
  if hasMarker r then r
  else if isMicroPython && hasNextAttr r then mkControlledThenableWrapper r
  else r

/-! ### Props conversion (`component.wrapper` lines 715-742, `Context.props`
lines 255-289) -/

/-- A foreign (JS) props object as observed by the conversion code:
whether it has a `to_py` method, its truthiness, the outcome of calling
`to_py()` (which may raise), and per-attribute behavior for the MicroPython
whitelist walk (`hasattr`, `getattr`, or raising on access). -/
structure ForeignProps where
  hasToPy : Bool
  truthy : Bool
  toPy : Except PyErr (List (String × Val))
  hasAttr : String → Bool
  getAttr : String → Val
  attrRaises : String → Bool

/-- The hard-coded whitelist (source lines 726 and 270). -/
def commonProps : List String :=
  ["name", "value", "id", "className", "onClick", "onChange", "children", "delay",
   "error", "type", "placeholder", "disabled", "checked", "src", "alt", "href", "target"]

/-- The MicroPython whitelist walk (lines 724-737 and 268-281): for each
whitelisted name, an attribute access that raises is skipped (inner
`try/except: pass`), and the name is kept only when the attribute exists and
its value is not `None`. -/
def micropythonExtractProps (p : ForeignProps) : List (String × Val) :=
  commonProps.filterMap (fun prop =>
    if p.attrRaises prop then none
    else if p.hasAttr prop && !(p.getAttr prop == Val.none) then
      some (prop, p.getAttr prop)
    else none)

/-- The props conversion of the adapted entry point (lines 715-742); the body
of `Context.props` (lines 255-289) has the same structure.  `none` stands for
an absent/null props object (Pyodide maps JS null/undefined to Python `None`,
which has no `to_py` and is falsy).  An object with `to_py` is converted by
calling it - unguarded, so a raise propagates - except that a falsy object
yields `{}`.  Without `to_py`, a truthy object on MicroPython goes through the
guarded whitelist walk (the outer `try/except` falls back to `{}`; with the
per-attribute guards of `micropythonExtractProps` total, it cannot fire), and
every remaining case yields `{}`. -/
def convertProps (isMicroPython : Bool) (props : Option ForeignProps) :
    Except PyErr (List (String × Val)) :=
  match props with
  | none => Except.ok []
  | some p =>
      if p.hasToPy then
        if p.truthy then p.toPy else Except.ok []
      else if p.truthy && isMicroPython then
        Except.ok (micropythonExtractProps p)
      else Except.ok []

/-- Does the conversion hit the one unguarded path (a truthy object whose
`to_py` method raises)? -/
def toPyConversionFails : Option ForeignProps → Bool
  | none => false
  | some p =>
      p.hasToPy && p.truthy &&
        (match p.toPy with
         | Except.ok _ => false
         | Except.error _ => true)

/-! ## Helper lemmas -/

/-- `dispatchArity` is the identity on the legal counts 0, 1, 2. -/
theorem dispatchArity_eq_of_le {n : Nat} (h : n ≤ 2) : dispatchArity n = n := by
  interval_cases n <;> rfl

/-- With a cached count `n ≤ 2`, one invocation dispatches exactly once at
arity `n` and leaves the cache unchanged. -/
theorem wrapperInvoke_cached (call : UserCall) (name : String) {n : Nat} (h : n ≤ 2) :
    wrapperInvoke call name (some n) = (call n, some n, [n]) := by
  simp [wrapperInvoke, dispatchArity_eq_of_le h]

/-- If `__next__` reports `StopIteration`, the resulting generator state is
exhausted. -/
theorem genNext_stop_exhausted {g g2 : Gen} (h : genNext g = (GenOut.stop, g2)) :
    g2.exhausted = true := by
  unfold genNext at h
  split at h
  · rename_i hg
    cases h
    exact hg
  · split at h <;> cases h <;> rfl

/-- On an exhausted generator, `__next__` raises `StopIteration` at once and
changes nothing (in particular the body does not run). -/
theorem genNext_exhausted {g : Gen} (h : g.exhausted = true) :
    genNext g = (GenOut.stop, g) := by
  simp [genNext, h]

/-- After `SymbolIteratorWrapper.next` reports `done: true`, the result value is
`None`, the underlying generator is exhausted, and the cached first value can
no longer be pending. -/
theorem wrapperNextMethod_done {s : WrapGen} {v : Option Val} {r : JsIterResult} {s2 : WrapGen}
    (h : wrapperNextMethod s v = (Except.ok r, s2)) (hd : r.done = true) :
    r = { value := none, done := true } ∧
      s2.pythonGenerator.exhausted = true ∧
      (s2.firstValue.isSome && !s2.firstValueConsumed) = false := by
  unfold wrapperNextMethod at h
  split at h
  · cases h
    simp at hd
  · rename_i hc
    split at h
    · cases h
      simp at hd
    · rename_i g hstop
      cases h
      refine ⟨rfl, genNext_stop_exhausted hstop, ?_⟩
      simpa using hc
    · cases h

/-- On a wrapper state whose generator is exhausted and whose first value is no
longer pending, `next` is a no-op: it returns the terminal result
`{value: None, done: true}` and the state - hence the body-resumption count -
is unchanged. -/
theorem wrapperNextMethod_exhausted {s : WrapGen}
    (hg : s.pythonGenerator.exhausted = true)
    (hc : (s.firstValue.isSome && !s.firstValueConsumed) = false) (v : Option Val) :
    wrapperNextMethod s v = (Except.ok { value := none, done := true }, s) := by
  unfold wrapperNextMethod
  rw [if_neg (by simp [hc]), genNext_exhausted hg]

/-! ## Claims -/

/-- C1 (code bug): the spec demands that a genuine user-code exception raised
inside a generator body while the host pulls through the bridge propagate to
the caller unchanged, the bridge never converting it into a normal terminal
result.  The code does the opposite at both cited places: on a generator whose
first resumption raises `ValueError("boom")`, the `python_next` closure of
`_create_controlled_thenable_wrapper` and the `next_method` closure of
`SymbolIteratorWrapper._create_sync_iterator` both catch the exception and
hand the host the normal terminal result `{value: None, done: true}`. -/
theorem generator_exception_swallowed_by_bridge :
    controlledThenableNext
        { steps := [StepOut.raises (PyErr.valueError "boom")], exhausted := false, bodyRuns := 0 }
      = ({ value := none, done := true }, { steps := [], exhausted := true, bodyRuns := 1 })
    ∧ (syncIteratorNext
        { pythonGenerator :=
            { steps := [StepOut.raises (PyErr.valueError "boom")], exhausted := false,
              bodyRuns := 0 },
          firstValue := none, firstValueConsumed := false,
          isSymbolIteratorWrapped := true }).1
      = { value := none, done := true } := by
  exact ⟨rfl, rfl⟩

/-- C2: in the fallback-classification runtime, an error raised on the arity-2
trial that is not arity-mismatch-shaped is re-raised to the caller verbatim:
no lower arity is tried (the dispatch trace is exactly `[2]`) and no
`InvalidSignature`/`ArityMismatch` error is substituted. -/
theorem nonarity_error_reraised (call : UserCall) (name : String) (e : PyErr)
    (h1 : call 2 = Except.error e) (h2 : isArityMismatchShaped e = false) :
    wrapperInvoke call name none = (Except.error e, some 2, [2]) := by
  simp [wrapperInvoke, runTrials, h1, h2]

/-- Witness for C2: a two-argument callable raising `ValueError("boom")` on
every trial has exactly `ValueError("boom")` re-raised from the first trial. -/
theorem nonarity_error_reraised_witness :
    wrapperInvoke (fun _ => Except.error (PyErr.valueError "boom")) "Broken" none
      = (Except.error (PyErr.valueError "boom"), some 2, [2]) :=
  nonarity_error_reraised (fun _ => Except.error (PyErr.valueError "boom")) "Broken"
    (PyErr.valueError "boom") rfl rfl

/-- C3: classification is stable.  Once a count `n ∈ {0,1,2}` is cached on the
descriptor (whether by decoration-time introspection or by a first successful
runtime trial), each of the next `k` invocations dispatches to the user
callable exactly once, at that same arity (every per-pass trace is `[n]`), and
the cache still holds `n` afterwards - no further trial dispatch ever runs. -/
theorem classification_stable (call : UserCall) (name : String) {n : Nat} (h : n ≤ 2)
    (k : Nat) :
    invokeTimes call name (some n) k = (List.replicate k [n], some n) := by
  induction k with
  | zero => rfl
  | succ k ih =>
      simp only [invokeTimes, wrapperInvoke_cached call name h, ih, List.replicate_succ]

/-- Witness for C3: with arity 1 cached, three further renders each dispatch
once at arity 1. -/
theorem classification_stable_witness :
    invokeTimes (fun _ => Except.ok (Val.int 7)) "Comp" (some 1) 3
      = ([[1], [1], [1]], some 1) :=
  classification_stable (fun _ => Except.ok (Val.int 7)) "Comp" (by decide) 3

/-- C4: with static introspection available, decoration fails eagerly with the
incompatible-signature `ValueError` exactly when the declared count exceeds 2,
and accepts counts 0, 1, 2 without error; the error message names the
component (it is of the shape `pre ++ name ++ suf`). -/
theorem decoration_rejects_bad_arity (n : Nat) (name : String) :
    componentDecorate (some n) name
      = (if n > 2 then Except.error (PyErr.valueError (incompatibleSignatureMsg name))
         else Except.ok (some n))
    ∧ ∃ pre suf, incompatibleSignatureMsg name = pre ++ name ++ suf := by
  refine ⟨rfl, "Component function ",
    " has incompatible signature. Expected 0, 1 (ctx), or 2 (ctx, props) parameters.", ?_⟩
  simp [incompatibleSignatureMsg, String.append_assoc]

/-- C5: registering the same callable identity twice with the Pyodide proxy
cache returns the identical handle both times (dedup is keyed on `id(func)`),
and the MicroPython variant returns the callable itself verbatim. -/
theorem register_twice_identical (s : ProxyState) (funcId : Nat) :
    (createProxyHybridPyodide (createProxyHybridPyodide s funcId).2 funcId).1
      = (createProxyHybridPyodide s funcId).1
    ∧ ∀ f : Val, createProxyHybridMicroPython f = f := by
  refine ⟨?_, fun f => rfl⟩
  unfold createProxyHybridPyodide
  cases h : s.cache.lookup funcId with
  | some proxyId => simp [h]
  | none => simp [h, List.lookup]

/-- A foreign props object whose `to_py` conversion method raises: the one
input on which the conversion of the adapted entry point is not guarded. -/
def failingToPyProps : ForeignProps :=
  { hasToPy := true, truthy := true,
    toPy := Except.error (PyErr.valueError "conversion failed"),
    hasAttr := fun _ => false, getAttr := fun _ => Val.none,
    attrRaises := fun _ => false }

/-- A foreign props object without `to_py` whose attribute accesses partly
raise: handled entirely by the guarded MicroPython walk. -/
def guardedProps : ForeignProps :=
  { hasToPy := false, truthy := true, toPy := Except.ok [],
    hasAttr := fun _ => true, getAttr := fun _ => Val.none,
    attrRaises := fun s => s == "onClick" }

/-- C6 counterexample: the claim says conversion never raises for every
foreign props object, including objects whose conversion fails.  On a truthy
object whose `to_py` method raises, the Pyodide branch of the conversion
(source line 718, `props.to_py()` unguarded) propagates the error. -/
theorem props_conversion_can_raise :
    convertProps false (some failingToPyProps)
      = Except.error (PyErr.valueError "conversion failed") := rfl

/-- C6 (amended): for every foreign props object except a truthy one whose
`to_py` method itself raises, the conversion never raises and returns a native
mapping (an empty one at worst): null/absent objects and the whole MicroPython
attribute walk - even with raising attribute accesses - are guarded. -/
theorem props_conversion_total_unless_toPy_raises (isMicroPython : Bool)
    (props : Option ForeignProps) (h : toPyConversionFails props = false) :
    ∃ m, convertProps isMicroPython props = Except.ok m := by
  cases props with
  | none => exact ⟨[], rfl⟩
  | some p =>
      unfold toPyConversionFails at h
      by_cases h1 : p.hasToPy = true
      · by_cases h2 : p.truthy = true
        · cases h3 : p.toPy with
          | ok m => exact ⟨m, by simp [convertProps, h1, h2, h3]⟩
          | error e => simp [h1, h2, h3] at h
        · exact ⟨[], by simp [convertProps, h1, h2]⟩
      · by_cases h2 : (p.truthy && isMicroPython) = true
        · exact ⟨micropythonExtractProps p, by simp [convertProps, h1, h2]⟩
        · exact ⟨[], by simp [convertProps, h1, h2]⟩

/-- Witness for the amended C6: the guarded MicroPython walk converts an
object with raising attribute accesses without raising. -/
theorem props_conversion_total_witness :
    ∃ m, convertProps true (some guardedProps) = Except.ok m :=
  props_conversion_total_unless_toPy_raises true (some guardedProps) rfl

/-- C7 (code bug): the spec requires every IteratorHandle to expose a
`return(value)` operation that forces cleanup, closes the handle, and answers
`{value, done: true}`.  The class body of `SymbolIteratorWrapper` defines
`next` and `throw` but no `return` at all (and no attribute fallback), so the
host finds no such operation on the handle. -/
theorem iterator_handle_lacks_return :
    ("return" ∈ symbolIteratorWrapperMethods) = False
    ∧ "next" ∈ symbolIteratorWrapperMethods
    ∧ "throw" ∈ symbolIteratorWrapperMethods := by
  refine ⟨by simp [symbolIteratorWrapperMethods], by decide, by decide⟩

/-- C8: once a `next` call on the wrapper has answered `done: true`, that
answer was the terminal result `{value: None, done: true}`, and every further
`next` call - with or without a resume value - consistently answers the very
same terminal result as a no-op, leaving the wrapper state (including the
generator's body-resumption count) unchanged: the underlying generator body is
never resumed again. -/
theorem exhausted_next_is_noop (s : WrapGen) (v : Option Val) (r : JsIterResult)
    (s2 : WrapGen) (h : wrapperNextMethod s v = (Except.ok r, s2)) (hd : r.done = true)
    (vs : List (Option Val)) :
    r = { value := none, done := true } ∧
      nextTrace s2 vs
        = (List.replicate vs.length (Except.ok { value := none, done := true }), s2) := by
  obtain ⟨hr, hg, hc⟩ := wrapperNextMethod_done h hd
  refine ⟨hr, ?_⟩
  induction vs with
  | nil => rfl
  | cons v2 vs ih =>
      simp only [nextTrace, wrapperNextMethod_exhausted hg hc v2, ih, List.length_cons,
        List.replicate_succ]

/-- Witness for C8: a generator with no yields is exhausted by its first
`next`; two further `next` calls are no-ops answering the same terminal
result, with the body-resumption count stuck at 1. -/
theorem exhausted_next_is_noop_witness :
    nextTrace
        { pythonGenerator := { steps := [], exhausted := true, bodyRuns := 1 },
          firstValue := none, firstValueConsumed := false, isSymbolIteratorWrapped := true }
        [none, some (Val.int 5)]
      = ([Except.ok { value := none, done := true }, Except.ok { value := none, done := true }],
         { pythonGenerator := { steps := [], exhausted := true, bodyRuns := 1 },
           firstValue := none, firstValueConsumed := false, isSymbolIteratorWrapped := true }) :=
  (exhausted_next_is_noop
      (mkSymbolIteratorWrapper { steps := [], exhausted := false, bodyRuns := 0 } none) none
      { value := none, done := true }
      { pythonGenerator := { steps := [], exhausted := true, bodyRuns := 1 },
        firstValue := none, firstValueConsumed := false, isSymbolIteratorWrapped := true }
      rfl rfl [none, some (Val.int 5)]).2

/-- C9: wrapping is idempotent.  A `SymbolIteratorWrapper` built by its
constructor carries the `_is_symbol_iterator_wrapped` marker; `wrap_result`
applied to any marked result short-circuits and returns the existing handle
unchanged; and re-applying `wrap_result` to any of its own outputs returns it
unchanged instead of producing a second wrapper around the same generator. -/
theorem rewrap_short_circuits (isMicroPython : Bool) (g : Gen) (firstValue : Option Val)
    (r r2 : RenderResult) (h : hasMarker r = true) :
    hasMarker (RenderResult.symbolWrapped (mkSymbolIteratorWrapper g firstValue)) = true
    ∧ wrapResult isMicroPython r = r
    ∧ wrapResult isMicroPython (wrapResult isMicroPython r2) = wrapResult isMicroPython r2 := by
  refine ⟨rfl, by simp [wrapResult, h], ?_⟩
  cases r2 with
  | plain v => simp [wrapResult, hasMarker, hasNextAttr]
  | thenable g2 => simp [wrapResult, hasMarker, hasNextAttr]
  | rawGen g2 =>
      by_cases hm : isMicroPython = true
      · simp [wrapResult, hasMarker, hasNextAttr, mkControlledThenableWrapper, hm]
      · simp [wrapResult, hasMarker, hasNextAttr, hm]
  | symbolWrapped s =>
      by_cases hs : s.isSymbolIteratorWrapped = true
      · simp [wrapResult, hasMarker, hs]
      · by_cases hm : isMicroPython = true
        · simp [wrapResult, hasMarker, hasNextAttr, mkControlledThenableWrapper, hs, hm]
        · simp [wrapResult, hasMarker, hasNextAttr, hs, hm]

/-- Witness for C9: a freshly constructed wrapper is marked and survives
`wrap_result` unchanged; a raw generator is wrapped only once. -/
theorem rewrap_short_circuits_witness :
    hasMarker (RenderResult.symbolWrapped
        (mkSymbolIteratorWrapper { steps := [], exhausted := false, bodyRuns := 0 } none)) = true
    ∧ wrapResult true (RenderResult.symbolWrapped
          (mkSymbolIteratorWrapper { steps := [], exhausted := false, bodyRuns := 0 } none))
      = RenderResult.symbolWrapped
          (mkSymbolIteratorWrapper { steps := [], exhausted := false, bodyRuns := 0 } none)
    ∧ wrapResult true (wrapResult true
          (RenderResult.rawGen { steps := [], exhausted := false, bodyRuns := 0 }))
      = wrapResult true (RenderResult.rawGen { steps := [], exhausted := false, bodyRuns := 0 }) :=
  rewrap_short_circuits true { steps := [], exhausted := false, bodyRuns := 0 } none
    (RenderResult.symbolWrapped
      (mkSymbolIteratorWrapper { steps := [], exhausted := false, bodyRuns := 0 } none))
    (RenderResult.rawGen { steps := [], exhausted := false, bodyRuns := 0 }) rfl

/-- A sample foreign props object for the MicroPython whitelist walk: it
exposes (only) a non-`None` attribute `name`. -/
def sampleMicroPythonProps : ForeignProps :=
  { hasToPy := false, truthy := true, toPy := Except.ok [],
    hasAttr := fun s => s == "name",
    getAttr := fun s => if s == "name" then Val.str "x" else Val.none,
    attrRaises := fun _ => false }

/-- C10: the MicroPython conversion of a non-null foreign props object walks
exactly the fixed 17-name whitelist: the conversion result is the whitelist
extraction, every key of the resulting mapping belongs to the whitelist, and a
key only survives when its attribute value is not `None` (keys outside the
whitelist and `None`-valued props are silently dropped). -/
theorem micropython_props_whitelist (p : ForeignProps) (k : String)
    (h1 : p.hasToPy = false) (h2 : p.truthy = true)
    (h3 : k ∈ (micropythonExtractProps p).map Prod.fst) :
    commonProps.length = 17
    ∧ convertProps true (some p) = Except.ok (micropythonExtractProps p)
    ∧ k ∈ commonProps
    ∧ p.getAttr k ≠ Val.none := by
  obtain ⟨pair, hmem, hfst⟩ := List.mem_map.mp h3
  obtain ⟨prop, hprop, heq⟩ := List.mem_filterMap.mp hmem
  refine ⟨rfl, by simp [convertProps, h1, h2], ?_⟩
  by_cases hr : p.attrRaises prop = true
  · rw [if_pos hr] at heq
    cases heq
  · rw [if_neg hr] at heq
    by_cases hc : (p.hasAttr prop && !(p.getAttr prop == Val.none)) = true
    · rw [if_pos hc] at heq
      injection heq with heq2
      subst heq2
      subst hfst
      have hc2 : p.hasAttr prop = true ∧ ¬(p.getAttr prop = Val.none) := by
        simpa using hc
      exact ⟨hprop, hc2.2⟩
    · rw [if_neg hc] at heq
      cases heq

/-- Witness for C10: the sample object converts to a mapping containing the
whitelisted key `name` with its non-`None` value. -/
theorem micropython_props_whitelist_witness :
    commonProps.length = 17
    ∧ convertProps true (some sampleMicroPythonProps)
        = Except.ok (micropythonExtractProps sampleMicroPythonProps)
    ∧ "name" ∈ commonProps
    ∧ sampleMicroPythonProps.getAttr "name" ≠ Val.none :=
  micropython_props_whitelist sampleMicroPythonProps "name" rfl rfl (by decide)

end Crank
